import Mathlib

/-!
Shallow embedding of `general/toaster/toastDrv/kmdf/toastmon/wmi.c`:
WMI device-arrival notification registration, the notification callback
that scans the target-device collection under its wait lock, and the
friendly-name / device-description fallback resolution.

NTSTATUS values are modelled as `Int` (signed 32-bit semantics: success
is `0 ≤ s`).  GUIDs are modelled as `Nat` (128-bit values compared for
equality).  External WDF/WDM calls are modelled by explicit data carried
in the structures (a target records the outcome each property query
would produce; the WMI open/set-callback environment records the status
each call would return), and observable side effects (lock operations,
KdPrint logging, buffer allocation and release) are emitted as an
explicit event trace.
-/

namespace Toastmon

/-- `NT_SUCCESS(Status)` is `((NTSTATUS)(Status)) >= 0`. -/
def NT_SUCCESS (s : Int) : Prop := 0 ≤ s

instance (s : Int) : Decidable (NT_SUCCESS s) := inferInstanceAs (Decidable (0 ≤ s))

def STATUS_SUCCESS : Int := 0

/-- `STATUS_INSUFFICIENT_RESOURCES` (0xC000009A as a signed 32-bit value). -/
def STATUS_INSUFFICIENT_RESOURCES : Int := -1073741670

/-- GUIDs are 128-bit values; only equality is ever used. -/
abbrev GUID := Nat

def IsEqualGUID (g1 g2 : GUID) : Bool := g1 == g2

/-- Modelled from the spec: the fixed, well-known 128-bit "device arrival"
event-class identifier (`TOASTER_NOTIFY_DEVICE_ARRIVAL_EVENT`, declared in
`public.h`, which is not part of the sources here; only its identity as a
fixed constant matters). -/
def TOASTER_NOTIFY_DEVICE_ARRIVAL_EVENT : GUID := 0x01cdaff1c90145b4b359b5542725e29c

/-- WDF I/O target states; the code only distinguishes `WdfIoTargetStarted`
from everything else. -/
inductive WDF_IO_TARGET_STATE where
  | WdfIoTargetStateUndefined
  | WdfIoTargetStarted
  | WdfIoTargetStopped
  | WdfIoTargetClosedForQueryRemove
  | WdfIoTargetClosed
  | WdfIoTargetPurged
deriving DecidableEq, Repr

/-- A WDM device object, as far as this module observes it: the provider id
that `IoWMIDeviceObjectToProviderId` derives from it. -/
structure DEVICE_OBJECT where
  ProviderId : Nat
deriving DecidableEq, Repr

/-- The two registry properties queried by `GetTargetFriendlyName`. -/
inductive DEVICE_REGISTRY_PROPERTY where
  | DevicePropertyFriendlyName
  | DevicePropertyDeviceDescription
deriving DecidableEq, Repr

/-- Outcome of one `WdfIoTargetAllocAndQueryTargetProperty` call: the
NTSTATUS it returns and the textual buffer it allocates when it succeeds. -/
structure QueryOutcome where
  status : Int
  buffer : String
deriving DecidableEq, Repr

/-- A WDFIOTARGET as observed by this module: its state, the WDM device
object backing it (`none` models a NULL device object), and the outcome
each of the two property queries would produce on it. -/
structure WDFIOTARGET where
  state : WDF_IO_TARGET_STATE
  devobj : Option DEVICE_OBJECT
  friendlyNameProp : QueryOutcome
  deviceDescriptionProp : QueryOutcome
deriving DecidableEq, Repr

def WdfIoTargetGetState (t : WDFIOTARGET) : WDF_IO_TARGET_STATE := t.state

def WdfIoTargetWdmGetTargetDeviceObject (t : WDFIOTARGET) : Option DEVICE_OBJECT := t.devobj

def IoWMIDeviceObjectToProviderId (d : DEVICE_OBJECT) : Nat := d.ProviderId

def WdfIoTargetAllocAndQueryTargetProperty (t : WDFIOTARGET) (p : DEVICE_REGISTRY_PROPERTY) :
    QueryOutcome :=
  match p with
  | .DevicePropertyFriendlyName => t.friendlyNameProp
  | .DevicePropertyDeviceDescription => t.deviceDescriptionProp

/-- The KdPrint messages this module emits. -/
inductive LogMsg where
  | notStarted                    -- "WDFIOTARGET %p not in an opened state."
  | queryFailed (status : Int)    -- "WdfDeviceQueryProperty returned %x"
  | resolveFailed (status : Int)  -- "GetDeviceFriendlyName returned %x"
  | arrival (name : String)       -- "%wZ fired a device arrival event"
  | unknownEvent                  -- "Unknown event."
deriving DecidableEq, Repr

/-- Observable side effects of the callback and the name resolver: wait-lock
operations, property queries issued, WDFMEMORY allocation and release, and
log emissions. -/
inductive Ev where
  | acquire
  | release
  | queried (p : DEVICE_REGISTRY_PROPERTY)
  | alloc (name : String)
  | free (name : String)
  | log (m : LogMsg)
deriving DecidableEq, Repr

/-- `GetTargetFriendlyName` (wmi.c lines 99–147): query the friendly name;
if that fails with any status other than `STATUS_INSUFFICIENT_RESOURCES`,
re-query the device description, overwriting the status; log on final
failure.  Returns the final query outcome together with the events emitted
(queries issued, allocation of the name buffer on success, failure log). -/
def GetTargetFriendlyName (Target : WDFIOTARGET) : QueryOutcome × List Ev :=
  let r1 := WdfIoTargetAllocAndQueryTargetProperty Target .DevicePropertyFriendlyName
  let r :=
    if ¬ NT_SUCCESS r1.status ∧ r1.status ≠ STATUS_INSUFFICIENT_RESOURCES then
      WdfIoTargetAllocAndQueryTargetProperty Target .DevicePropertyDeviceDescription
    else r1
  let qevs :=
    if ¬ NT_SUCCESS r1.status ∧ r1.status ≠ STATUS_INSUFFICIENT_RESOURCES then
      [Ev.queried .DevicePropertyFriendlyName, Ev.queried .DevicePropertyDeviceDescription]
    else [Ev.queried .DevicePropertyFriendlyName]
  if ¬ NT_SUCCESS r.status then
    (r, qevs ++ [Ev.log (LogMsg.queryFailed r.status)])
  else
    (r, qevs ++ [Ev.alloc r.buffer])

/-- WNODE header: the two fields the callback reads. -/
structure WNODE_HEADER where
  ProviderId : Nat
  Guid : GUID
deriving DecidableEq, Repr

/-- The inbound WNODE: its header plus the variable-length body, which the
callback never interprets. -/
structure WNODE_SINGLE_INSTANCE where
  WnodeHeader : WNODE_HEADER
  VariableData : List Nat
deriving DecidableEq, Repr

/-- The device extension fields this module touches: the target-device
collection (ordered, externally owned) and the WMI notification object
slot. -/
structure DEVICE_EXTENSION where
  TargetDeviceCollection : List WDFIOTARGET
  WMIDeviceArrivalNotificationObject : Option Nat
deriving DecidableEq, Repr

def WdfCollectionGetCount (c : List WDFIOTARGET) : Nat := c.length

/-- The matched-arrival block of the callback loop (wmi.c lines 210–228):
resolve the target's name; on failure log the failure status and `break`;
on success log the arrival with the resolved name, delete the WDFMEMORY,
and `break`. -/
def resolveEvents (ioTarget : WDFIOTARGET) : List Ev :=
  let res := GetTargetFriendlyName ioTarget
  if ¬ NT_SUCCESS res.1.status then
    res.2 ++ [Ev.log (LogMsg.resolveFailed res.1.status)]
  else
    res.2 ++ [Ev.log (LogMsg.arrival res.1.buffer), Ev.free res.1.buffer]

/-- The body of the `for` loop in `WmiNotificationCallback` (wmi.c lines
188–235), traversing the collection in order.  Returning without a
recursive call models `break`; recursing models `continue` / falling
through to the next iteration. -/
def wmiScanTargets (wnode : WNODE_SINGLE_INSTANCE) : List WDFIOTARGET → List Ev
  | [] => []
  | ioTarget :: rest =>
    if WdfIoTargetGetState ioTarget ≠ WDF_IO_TARGET_STATE.WdfIoTargetStarted then
      Ev.log LogMsg.notStarted :: wmiScanTargets wnode rest
    else
      match WdfIoTargetWdmGetTargetDeviceObject ioTarget with
      | none => wmiScanTargets wnode rest
      | some devobj =>
        if IoWMIDeviceObjectToProviderId devobj = wnode.WnodeHeader.ProviderId then
          if IsEqualGUID wnode.WnodeHeader.Guid TOASTER_NOTIFY_DEVICE_ARRIVAL_EVENT then
            resolveEvents ioTarget
          else
            Ev.log LogMsg.unknownEvent :: wmiScanTargets wnode rest
        else
          wmiScanTargets wnode rest

/-- `WmiNotificationCallback` (wmi.c lines 149–238): acquire the collection
lock, scan the targets, release the lock.  Returns the (unchanged) device
extension and the emitted event trace. -/
def WmiNotificationCallback (Wnode : WNODE_SINGLE_INSTANCE) (Context : DEVICE_EXTENSION) :
    DEVICE_EXTENSION × List Ev :=
  let deviceExt := Context
  let hCollection := deviceExt.TargetDeviceCollection
  (deviceExt, Ev.acquire :: (wmiScanTargets Wnode hCollection ++ [Ev.release]))

/-- Environment for `RegisterForWMINotification`: the status `IoWMIOpenBlock`
returns, the notification-object handle it produces on success, and the
status `IoWMISetNotificationCallback` returns. -/
structure WmiEnv where
  openStatus : Int
  openHandle : Nat
  setCallbackStatus : Int
deriving DecidableEq, Repr

/-- Events emitted by the registration lifecycle: the notification object
handle being opened or dereferenced, and the KdPrint failure logs. -/
inductive RegEv where
  | opened (h : Nat)
  | dereferenced (h : Nat)
  | openFailedLog (status : Int)          -- "Unable to open wmi data block ..."
  | setCallbackFailedLog (status : Int)   -- "Unable to register for wmi notification ..."
deriving DecidableEq, Repr

/-- The condition asserted at wmi.c line 51:
`ASSERT(DeviceExt->WMIDeviceArrivalNotificationObject == NULL)`. -/
def RegisterForWMINotificationAssert (DeviceExt : DEVICE_EXTENSION) : Prop :=
  DeviceExt.WMIDeviceArrivalNotificationObject = none

instance (d : DEVICE_EXTENSION) : Decidable (RegisterForWMINotificationAssert d) :=
  inferInstanceAs (Decidable (d.WMIDeviceArrivalNotificationObject = none))

/-- `RegisterForWMINotification` (wmi.c lines 38–83): open a WMI block for
the arrival GUID; on open failure, NULL the slot and return the open
status; on success, install the callback; on install failure, dereference
the opened object, NULL the slot and return the install status. -/
def RegisterForWMINotification (env : WmiEnv) (DeviceExt : DEVICE_EXTENSION) :
    Int × DEVICE_EXTENSION × List RegEv :=
  let status := env.openStatus
  if ¬ NT_SUCCESS status then
    (status,
     { DeviceExt with WMIDeviceArrivalNotificationObject := none },
     [RegEv.openFailedLog status])
  else
    let deviceExt1 :=
      { DeviceExt with WMIDeviceArrivalNotificationObject := some env.openHandle }
    let status := env.setCallbackStatus
    if ¬ NT_SUCCESS status then
      (status,
       { deviceExt1 with WMIDeviceArrivalNotificationObject := none },
       [RegEv.opened env.openHandle, RegEv.setCallbackFailedLog status,
        RegEv.dereferenced env.openHandle])
    else
      (status, deviceExt1, [RegEv.opened env.openHandle])

/-- `UnregisterForWMINotification` (wmi.c lines 86–97): if the slot is
non-NULL, dereference the object and NULL the slot; otherwise do nothing. -/
def UnregisterForWMINotification (DeviceExt : DEVICE_EXTENSION) :
    DEVICE_EXTENSION × List RegEv :=
  match DeviceExt.WMIDeviceArrivalNotificationObject with
  | some h =>
    ({ DeviceExt with WMIDeviceArrivalNotificationObject := none },
     [RegEv.dereferenced h])
  | none => (DeviceExt, [])

/-- A target matches an event in the sense of wmi.c lines 197–206: it is
started, its device object is non-NULL, and that object's provider id
equals the event's provider id. -/
def targetMatches (wnode : WNODE_SINGLE_INSTANCE) (t : WDFIOTARGET) : Prop :=
  WdfIoTargetGetState t = WDF_IO_TARGET_STATE.WdfIoTargetStarted ∧
  ∃ d, WdfIoTargetWdmGetTargetDeviceObject t = some d ∧
    IoWMIDeviceObjectToProviderId d = wnode.WnodeHeader.ProviderId

instance (w : WNODE_SINGLE_INSTANCE) (t : WDFIOTARGET) : Decidable (targetMatches w t) :=
  decidable_of_iff
    (WdfIoTargetGetState t = WDF_IO_TARGET_STATE.WdfIoTargetStarted ∧
      ((WdfIoTargetWdmGetTargetDeviceObject t).any
        fun d => IoWMIDeviceObjectToProviderId d == w.WnodeHeader.ProviderId) = true)
    (by cases h : WdfIoTargetWdmGetTargetDeviceObject t <;>
      simp [targetMatches, h, Option.any])

/-- The events a non-matching target contributes before the first match is
reached, when the event carries the arrival GUID: one `notStarted` log if
it is not started, nothing otherwise. -/
def skipEvents : List WDFIOTARGET → List Ev
  | [] => []
  | t :: rest =>
    if WdfIoTargetGetState t ≠ WDF_IO_TARGET_STATE.WdfIoTargetStarted then
      Ev.log LogMsg.notStarted :: skipEvents rest
    else skipEvents rest

/-! ### Normal form of `GetTargetFriendlyName` -/

theorem GetTargetFriendlyName_spec (t : WDFIOTARGET) :
    GetTargetFriendlyName t =
      if ¬ NT_SUCCESS t.friendlyNameProp.status ∧
          t.friendlyNameProp.status ≠ STATUS_INSUFFICIENT_RESOURCES then
        (if ¬ NT_SUCCESS t.deviceDescriptionProp.status then
          (t.deviceDescriptionProp,
           [Ev.queried .DevicePropertyFriendlyName,
            Ev.queried .DevicePropertyDeviceDescription,
            Ev.log (LogMsg.queryFailed t.deviceDescriptionProp.status)])
        else
          (t.deviceDescriptionProp,
           [Ev.queried .DevicePropertyFriendlyName,
            Ev.queried .DevicePropertyDeviceDescription,
            Ev.alloc t.deviceDescriptionProp.buffer]))
      else
        (if ¬ NT_SUCCESS t.friendlyNameProp.status then
          (t.friendlyNameProp,
           [Ev.queried .DevicePropertyFriendlyName,
            Ev.log (LogMsg.queryFailed t.friendlyNameProp.status)])
        else
          (t.friendlyNameProp,
           [Ev.queried .DevicePropertyFriendlyName,
            Ev.alloc t.friendlyNameProp.buffer])) := by
  unfold GetTargetFriendlyName WdfIoTargetAllocAndQueryTargetProperty
  by_cases h1 : ¬ NT_SUCCESS t.friendlyNameProp.status ∧
      t.friendlyNameProp.status ≠ STATUS_INSUFFICIENT_RESOURCES
  · simp only [if_pos h1]
    by_cases h2 : ¬ NT_SUCCESS t.deviceDescriptionProp.status
    · simp [h2]
    · simp [h2]
  · simp only [if_neg h1]
    by_cases h2 : ¬ NT_SUCCESS t.friendlyNameProp.status
    · simp [h2]
    · simp [h2]

theorem not_success_insufficient : ¬ NT_SUCCESS STATUS_INSUFFICIENT_RESOURCES := by decide

/-! ### Sample inputs used by witnesses -/

def devA : DEVICE_OBJECT := ⟨10⟩

def devB : DEVICE_OBJECT := ⟨20⟩

def tStoppedA : WDFIOTARGET :=
  ⟨.WdfIoTargetStopped, some devA, ⟨0, "T1"⟩, ⟨0, "T1desc"⟩⟩

def tStartedB : WDFIOTARGET :=
  ⟨.WdfIoTargetStarted, some devB, ⟨0, "T2"⟩, ⟨0, "T2desc"⟩⟩

def tStartedB2 : WDFIOTARGET :=
  ⟨.WdfIoTargetStarted, some devB, ⟨0, "T3"⟩, ⟨0, "T3desc"⟩⟩

/-- A target whose friendly-name query fails with
`STATUS_INSUFFICIENT_RESOURCES` while the description query would succeed. -/
def tInsufficient : WDFIOTARGET :=
  ⟨.WdfIoTargetStarted, some devB, ⟨STATUS_INSUFFICIENT_RESOURCES, ""⟩, ⟨0, "desc"⟩⟩

/-- A target on which both property queries fail (friendly name with
`STATUS_OBJECT_NAME_NOT_FOUND` = 0xC0000034, description with a generic
failure). -/
def tBothFail : WDFIOTARGET :=
  ⟨.WdfIoTargetStarted, some devB, ⟨-1073741772, ""⟩, ⟨-1, ""⟩⟩

def extEmpty : DEVICE_EXTENSION := ⟨[], none⟩

def extLive : DEVICE_EXTENSION := ⟨[], some 5⟩

def extSample : DEVICE_EXTENSION := ⟨[tStoppedA, tStartedB, tStartedB2], none⟩

/-- An arrival event fired by provider 20 (the provider of `devB`). -/
def wnArrival : WNODE_SINGLE_INSTANCE :=
  ⟨⟨20, TOASTER_NOTIFY_DEVICE_ARRIVAL_EVENT⟩, []⟩

/-- An event from provider 20 whose event-class GUID is not the arrival GUID. -/
def wnUnknown : WNODE_SINGLE_INSTANCE := ⟨⟨20, 0⟩, []⟩

/-! ### Claims about NameResolver (`GetTargetFriendlyName`) -/

/-- C2: name resolution first queries the friendly-name property; the
device-description property is queried if and only if the friendly-name
query fails with a status other than `STATUS_INSUFFICIENT_RESOURCES`; on an
insufficient-resources failure no fallback query is made and that status is
returned directly. -/
theorem C2_friendly_name_fallback_policy (t : WDFIOTARGET) :
    (GetTargetFriendlyName t).2.head? =
      some (Ev.queried DEVICE_REGISTRY_PROPERTY.DevicePropertyFriendlyName) ∧
    (Ev.queried DEVICE_REGISTRY_PROPERTY.DevicePropertyDeviceDescription ∈
        (GetTargetFriendlyName t).2 ↔
      ¬ NT_SUCCESS t.friendlyNameProp.status ∧
        t.friendlyNameProp.status ≠ STATUS_INSUFFICIENT_RESOURCES) ∧
    (t.friendlyNameProp.status = STATUS_INSUFFICIENT_RESOURCES →
      (GetTargetFriendlyName t).1.status = STATUS_INSUFFICIENT_RESOURCES ∧
      Ev.queried DEVICE_REGISTRY_PROPERTY.DevicePropertyDeviceDescription ∉
        (GetTargetFriendlyName t).2) := by
  rw [GetTargetFriendlyName_spec]
  by_cases h1 : ¬ NT_SUCCESS t.friendlyNameProp.status ∧
      t.friendlyNameProp.status ≠ STATUS_INSUFFICIENT_RESOURCES
  · rw [if_pos h1]
    refine ⟨?_, ?_, ?_⟩
    · by_cases h2 : ¬ NT_SUCCESS t.deviceDescriptionProp.status <;> simp [h2]
    · by_cases h2 : ¬ NT_SUCCESS t.deviceDescriptionProp.status <;> simp [h2, h1]
    · intro hins
      exact absurd hins h1.2
  · rw [if_neg h1]
    refine ⟨?_, ?_, ?_⟩
    · by_cases h2 : ¬ NT_SUCCESS t.friendlyNameProp.status <;> simp [h2]
    · constructor
      · intro hmem
        by_cases h2 : ¬ NT_SUCCESS t.friendlyNameProp.status <;> simp [h2] at hmem
      · intro hrhs
        exact absurd hrhs h1
    · intro hins
      have h2 : ¬ NT_SUCCESS t.friendlyNameProp.status := by
        rw [hins]; exact not_success_insufficient
      rw [if_pos h2]
      simp [hins]

/-- Witness for C2 at `tInsufficient`: the insufficient-resources status is
returned directly and the description property is never queried. -/
theorem C2_friendly_name_fallback_policy_witness :
    (GetTargetFriendlyName tInsufficient).1.status = STATUS_INSUFFICIENT_RESOURCES ∧
    Ev.queried DEVICE_REGISTRY_PROPERTY.DevicePropertyDeviceDescription ∉
      (GetTargetFriendlyName tInsufficient).2 :=
  (C2_friendly_name_fallback_policy tInsufficient).2.2 rfl

/-- C9: when the friendly-name query fails with a status other than
insufficient-resources and the fallback device-description query also
fails, the returned status is the device-description query's status, and
the result does not depend on the friendly-name failure at all. -/
theorem C9_fallback_discards_first_status (t : WDFIOTARGET)
    (h1 : ¬ NT_SUCCESS t.friendlyNameProp.status)
    (h2 : t.friendlyNameProp.status ≠ STATUS_INSUFFICIENT_RESOURCES)
    (h3 : ¬ NT_SUCCESS t.deviceDescriptionProp.status) :
    (GetTargetFriendlyName t).1.status = t.deviceDescriptionProp.status ∧
    (∀ (s : Int) (buf : String), ¬ NT_SUCCESS s → s ≠ STATUS_INSUFFICIENT_RESOURCES →
      GetTargetFriendlyName { t with friendlyNameProp := ⟨s, buf⟩ } =
        GetTargetFriendlyName t) := by
  have hc2 : ¬ NT_SUCCESS t.friendlyNameProp.status ∧
      t.friendlyNameProp.status ≠ STATUS_INSUFFICIENT_RESOURCES := ⟨h1, h2⟩
  constructor
  · rw [GetTargetFriendlyName_spec, if_pos hc2, if_pos h3]
  · intro s buf hs hins
    have hc1 : ¬ NT_SUCCESS s ∧ s ≠ STATUS_INSUFFICIENT_RESOURCES := ⟨hs, hins⟩
    rw [GetTargetFriendlyName_spec, GetTargetFriendlyName_spec]
    dsimp only
    rw [if_pos hc1, if_pos hc2]

/-- Witness for C9 at `tBothFail`: the description query's status (-1) is
what reaches the caller. -/
theorem C9_fallback_discards_first_status_witness :
    (GetTargetFriendlyName tBothFail).1.status = tBothFail.deviceDescriptionProp.status :=
  (C9_fallback_discards_first_status tBothFail (by decide) (by decide) (by decide)).1

/-! ### Claims about the registration lifecycle -/

/-- C4: on every failing execution of `RegisterForWMINotification`, the
returned status is the status of the step that failed (the open status if
the open failed, otherwise the callback-install status), the notification
slot is left empty, and every opened notification object is dereferenced. -/
theorem C4_register_failure_cleanup (env : WmiEnv) (ext : DEVICE_EXTENSION)
    (hfail : ¬ NT_SUCCESS (RegisterForWMINotification env ext).1) :
    (RegisterForWMINotification env ext).2.1.WMIDeviceArrivalNotificationObject = none ∧
    (RegisterForWMINotification env ext).1 =
      (if NT_SUCCESS env.openStatus then env.setCallbackStatus else env.openStatus) ∧
    (∀ h, RegEv.opened h ∈ (RegisterForWMINotification env ext).2.2 →
      RegEv.dereferenced h ∈ (RegisterForWMINotification env ext).2.2) := by
  by_cases h1 : NT_SUCCESS env.openStatus
  · by_cases h2 : NT_SUCCESS env.setCallbackStatus
    · exfalso
      apply hfail
      simp [RegisterForWMINotification, h1, h2]
    · refine ⟨?_, ?_, ?_⟩ <;> simp [RegisterForWMINotification, h1, h2]
  · refine ⟨?_, ?_, ?_⟩ <;> simp [RegisterForWMINotification, h1]

/-- An environment whose `IoWMIOpenBlock` fails with a generic error. -/
def envOpenFail : WmiEnv := ⟨-1, 7, 0⟩

/-- Witness for C4: with a failing open, the slot stays empty, the open
status is returned, and no opened object leaks. -/
theorem C4_register_failure_cleanup_witness :
    (RegisterForWMINotification envOpenFail extEmpty).2.1.WMIDeviceArrivalNotificationObject =
      none ∧
    (RegisterForWMINotification envOpenFail extEmpty).1 =
      (if NT_SUCCESS envOpenFail.openStatus then envOpenFail.setCallbackStatus
        else envOpenFail.openStatus) ∧
    (∀ h, RegEv.opened h ∈ (RegisterForWMINotification envOpenFail extEmpty).2.2 →
      RegEv.dereferenced h ∈ (RegisterForWMINotification envOpenFail extEmpty).2.2) :=
  C4_register_failure_cleanup envOpenFail extEmpty (by decide)

/-- C5: `UnregisterForWMINotification` is idempotent: on an empty slot it is
a no-op emitting no events; on a live slot it dereferences the object and
clears the slot, so a second call is a no-op. -/
theorem C5_unregister_idempotent :
    (∀ ext : DEVICE_EXTENSION, ext.WMIDeviceArrivalNotificationObject = none →
      UnregisterForWMINotification ext = (ext, [])) ∧
    (∀ (ext : DEVICE_EXTENSION) (h : Nat),
      ext.WMIDeviceArrivalNotificationObject = some h →
      (UnregisterForWMINotification ext).1.WMIDeviceArrivalNotificationObject = none ∧
      (UnregisterForWMINotification ext).2 = [RegEv.dereferenced h]) ∧
    (∀ ext : DEVICE_EXTENSION,
      UnregisterForWMINotification (UnregisterForWMINotification ext).1 =
        ((UnregisterForWMINotification ext).1, [])) := by
  refine ⟨?_, ?_, ?_⟩
  · intro ext h
    simp [UnregisterForWMINotification, h]
  · intro ext hdl h
    simp [UnregisterForWMINotification, h]
  · intro ext
    cases h : ext.WMIDeviceArrivalNotificationObject <;>
      simp [UnregisterForWMINotification, h]

/-- Witness for C5: unregistering an empty context is a no-op, and after
unregistering a live context a second unregister is a no-op. -/
theorem C5_unregister_idempotent_witness :
    UnregisterForWMINotification extEmpty = (extEmpty, []) ∧
    UnregisterForWMINotification (UnregisterForWMINotification extLive).1 =
      ((UnregisterForWMINotification extLive).1, []) :=
  ⟨C5_unregister_idempotent.1 extEmpty rfl, C5_unregister_idempotent.2.2 extLive⟩

/-- C8: the assertion at the top of `RegisterForWMINotification` checks
exactly that the subscription slot is empty: it never fires under the
stated precondition, it fires on any context whose slot is occupied, and a
successful registration occupies the slot so an immediate second
registration would violate it. -/
theorem C8_register_precondition_assert :
    (∀ ext : DEVICE_EXTENSION, ext.WMIDeviceArrivalNotificationObject = none →
      RegisterForWMINotificationAssert ext) ∧
    (∀ ext : DEVICE_EXTENSION, ext.WMIDeviceArrivalNotificationObject ≠ none →
      ¬ RegisterForWMINotificationAssert ext) ∧
    (∀ (env : WmiEnv) (ext : DEVICE_EXTENSION),
      NT_SUCCESS (RegisterForWMINotification env ext).1 →
      ¬ RegisterForWMINotificationAssert (RegisterForWMINotification env ext).2.1) := by
  refine ⟨?_, ?_, ?_⟩
  · intro ext h
    exact h
  · intro ext h
    exact h
  · intro env ext hsucc
    by_cases h1 : NT_SUCCESS env.openStatus
    · by_cases h2 : NT_SUCCESS env.setCallbackStatus
      · simp [RegisterForWMINotification, h1, h2, RegisterForWMINotificationAssert]
      · simp [RegisterForWMINotification, h1, h2] at hsucc
    · simp [RegisterForWMINotification, h1] at hsucc

/-- Witness for C8: the assertion holds on an empty-slot context and fails
on an occupied one. -/
theorem C8_register_precondition_assert_witness :
    RegisterForWMINotificationAssert extEmpty ∧
    ¬ RegisterForWMINotificationAssert extLive :=
  ⟨C8_register_precondition_assert.1 extEmpty rfl,
   C8_register_precondition_assert.2.1 extLive (by decide)⟩

/-! ### Trace lemmas for the callback -/

theorem resolveEvents_no_lock (t : WDFIOTARGET) :
    Ev.acquire ∉ resolveEvents t ∧ Ev.release ∉ resolveEvents t := by
  simp only [resolveEvents]
  rw [GetTargetFriendlyName_spec]
  split_ifs <;> simp

theorem scan_no_lock (w : WNODE_SINGLE_INSTANCE) (l : List WDFIOTARGET) :
    Ev.acquire ∉ wmiScanTargets w l ∧ Ev.release ∉ wmiScanTargets w l := by
  induction l with
  | nil => simp [wmiScanTargets]
  | cons t rest ih =>
    simp only [wmiScanTargets]
    split
    · simp [ih.1, ih.2]
    · split
      · exact ih
      · split
        · split
          · exact resolveEvents_no_lock t
          · simp [ih.1, ih.2]
        · exact ih

theorem resolveEvents_alloc_balanced (t : WDFIOTARGET) (s : String) :
    (resolveEvents t).count (Ev.alloc s) = (resolveEvents t).count (Ev.free s) := by
  simp only [resolveEvents]
  rw [GetTargetFriendlyName_spec]
  by_cases h1 : ¬ NT_SUCCESS t.friendlyNameProp.status ∧
      t.friendlyNameProp.status ≠ STATUS_INSUFFICIENT_RESOURCES
  · rw [if_pos h1]
    by_cases h2 : ¬ NT_SUCCESS t.deviceDescriptionProp.status
    · rw [if_pos h2]
      simp [h2, List.count_cons, List.count_nil]
    · rw [if_neg h2]
      by_cases hbs : t.deviceDescriptionProp.buffer = s <;>
        simp [h2, hbs, List.count_cons, List.count_nil]
  · rw [if_neg h1]
    by_cases h2 : ¬ NT_SUCCESS t.friendlyNameProp.status
    · rw [if_pos h2]
      simp [h2, List.count_cons, List.count_nil]
    · rw [if_neg h2]
      by_cases hbs : t.friendlyNameProp.buffer = s <;>
        simp [h2, hbs, List.count_cons, List.count_nil]

theorem scan_alloc_balanced (w : WNODE_SINGLE_INSTANCE) (s : String)
    (l : List WDFIOTARGET) :
    (wmiScanTargets w l).count (Ev.alloc s) = (wmiScanTargets w l).count (Ev.free s) := by
  induction l with
  | nil => simp [wmiScanTargets]
  | cons t rest ih =>
    simp only [wmiScanTargets]
    split
    · simp [List.count_cons, ih]
    · split
      · exact ih
      · split
        · split
          · exact resolveEvents_alloc_balanced t s
          · simp [List.count_cons, ih]
        · exact ih

theorem scan_header_only (w1 w2 : WNODE_SINGLE_INSTANCE)
    (h : w1.WnodeHeader = w2.WnodeHeader) (l : List WDFIOTARGET) :
    wmiScanTargets w1 l = wmiScanTargets w2 l := by
  induction l with
  | nil => rfl
  | cons t rest ih => simp only [wmiScanTargets, h, ih]

/-! ### Claims about the dispatch callback -/

/-- C3: every invocation of the callback acquires the collection lock
exactly once, as its first action, and releases it exactly once, as its
last action; it never returns holding the lock. -/
theorem C3_lock_acquired_released_once (w : WNODE_SINGLE_INSTANCE)
    (ext : DEVICE_EXTENSION) :
    ((WmiNotificationCallback w ext).2).count Ev.acquire = 1 ∧
    ((WmiNotificationCallback w ext).2).count Ev.release = 1 ∧
    ((WmiNotificationCallback w ext).2).head? = some Ev.acquire ∧
    ((WmiNotificationCallback w ext).2).getLast? = some Ev.release := by
  have h := scan_no_lock w ext.TargetDeviceCollection
  refine ⟨?_, ?_, ?_, ?_⟩
  · simp [WmiNotificationCallback, List.count_cons, List.count_append, List.count_nil,
      List.count_eq_zero.mpr h.1]
  · simp [WmiNotificationCallback, List.count_cons, List.count_append, List.count_nil,
      List.count_eq_zero.mpr h.2]
  · simp [WmiNotificationCallback]
  · simp only [WmiNotificationCallback]
    rw [← List.cons_append, List.getLast?_concat]

/-- C6: a Started target whose provider matches the event but whose
event-class GUID is not the arrival GUID gets an unknown-event log, and the
scan continues with the remaining targets. -/
theorem C6_unknown_event_continues (wnode : WNODE_SINGLE_INSTANCE) (t : WDFIOTARGET)
    (d : DEVICE_OBJECT) (rest : List WDFIOTARGET)
    (hstate : WdfIoTargetGetState t = WDF_IO_TARGET_STATE.WdfIoTargetStarted)
    (hdev : WdfIoTargetWdmGetTargetDeviceObject t = some d)
    (hprov : IoWMIDeviceObjectToProviderId d = wnode.WnodeHeader.ProviderId)
    (hguid : wnode.WnodeHeader.Guid ≠ TOASTER_NOTIFY_DEVICE_ARRIVAL_EVENT) :
    wmiScanTargets wnode (t :: rest) =
      Ev.log LogMsg.unknownEvent :: wmiScanTargets wnode rest := by
  simp [wmiScanTargets, hstate, hdev, hprov, IsEqualGUID, hguid]

/-- Witness for C6: an event from provider 20 with event-class GUID 0 hits
the started target `tStartedB` and yields the unknown-event log followed by
the (empty) scan of the remaining targets. -/
theorem C6_unknown_event_continues_witness :
    wmiScanTargets wnUnknown [tStartedB] =
      Ev.log LogMsg.unknownEvent :: wmiScanTargets wnUnknown [] :=
  C6_unknown_event_continues wnUnknown tStartedB devB [] rfl rfl rfl (by decide)

/-- C7: the callback leaves the device extension — in particular the target
collection — unchanged, and every resolved-name buffer allocation in its
trace is matched by a release. -/
theorem C7_dispatch_frame (w : WNODE_SINGLE_INSTANCE) (ext : DEVICE_EXTENSION) :
    (WmiNotificationCallback w ext).1 = ext ∧
    (WmiNotificationCallback w ext).1.TargetDeviceCollection =
      ext.TargetDeviceCollection ∧
    ∀ s : String, ((WmiNotificationCallback w ext).2).count (Ev.alloc s) =
      ((WmiNotificationCallback w ext).2).count (Ev.free s) := by
  refine ⟨rfl, rfl, fun s => ?_⟩
  simp [WmiNotificationCallback, List.count_cons, List.count_append, List.count_nil,
    scan_alloc_balanced w s ext.TargetDeviceCollection]

/-- C10: the callback's result depends only on the WNODE header; two events
with equal headers and arbitrary bodies produce identical behaviour. -/
theorem C10_header_only (w1 w2 : WNODE_SINGLE_INSTANCE) (ext : DEVICE_EXTENSION)
    (h : w1.WnodeHeader = w2.WnodeHeader) :
    WmiNotificationCallback w1 ext = WmiNotificationCallback w2 ext := by
  simp only [WmiNotificationCallback]
  rw [scan_header_only w1 w2 h]

/-- Two arrival events with identical headers but different opaque bodies. -/
def wnBody1 : WNODE_SINGLE_INSTANCE :=
  ⟨⟨20, TOASTER_NOTIFY_DEVICE_ARRIVAL_EVENT⟩, [1, 2, 3]⟩

def wnBody2 : WNODE_SINGLE_INSTANCE :=
  ⟨⟨20, TOASTER_NOTIFY_DEVICE_ARRIVAL_EVENT⟩, [9]⟩

/-- Witness for C10: the two body-differing events behave identically. -/
theorem C10_header_only_witness :
    WmiNotificationCallback wnBody1 extSample = WmiNotificationCallback wnBody2 extSample :=
  C10_header_only wnBody1 wnBody2 extSample rfl

/-- The first-match structure of the scan on an arrival event: with no
match before `t` and `t` matching, the scan is exactly the skip logs of the
prefix followed by the resolution of `t`; the targets after `t` contribute
nothing. -/
theorem scan_first_match (w : WNODE_SINGLE_INSTANCE)
    (hguid : w.WnodeHeader.Guid = TOASTER_NOTIFY_DEVICE_ARRIVAL_EVENT) :
    ∀ (pre : List WDFIOTARGET) (t : WDFIOTARGET) (post : List WDFIOTARGET),
      (∀ t' ∈ pre, ¬ targetMatches w t') → targetMatches w t →
      wmiScanTargets w (pre ++ t :: post) = skipEvents pre ++ resolveEvents t := by
  intro pre
  induction pre with
  | nil =>
    intro t post _ hmatch
    obtain ⟨hstate, d, hdev, hprov⟩ := hmatch
    simp [wmiScanTargets, skipEvents, hstate, hdev, hprov, IsEqualGUID, hguid]
  | cons p pre' ih =>
    intro t post hpre hmatch
    have hp : ¬ targetMatches w p := hpre p (List.mem_cons_self p pre')
    have hrest : ∀ t' ∈ pre', ¬ targetMatches w t' :=
      fun t' ht' => hpre t' (List.mem_cons_of_mem p ht')
    by_cases hs : WdfIoTargetGetState p = WDF_IO_TARGET_STATE.WdfIoTargetStarted
    · cases hdev : WdfIoTargetWdmGetTargetDeviceObject p with
      | none =>
        simp [wmiScanTargets, skipEvents, hs, hdev, ih t post hrest hmatch]
      | some d =>
        have hne : IoWMIDeviceObjectToProviderId d ≠ w.WnodeHeader.ProviderId :=
          fun he => hp ⟨hs, d, hdev, he⟩
        simp [wmiScanTargets, skipEvents, hs, hdev, hne, ih t post hrest hmatch]
    · simp [wmiScanTargets, skipEvents, hs, ih t post hrest hmatch]

/-- C1: on an arrival event, the callback's trace is the lock acquisition,
the skip logs for the non-matching prefix, the full resolution of the first
matching started target (arrival log on success, failure log on failure),
and the lock release — the targets after the first match are never
evaluated. -/
theorem C1_first_match_wins (wnode : WNODE_SINGLE_INSTANCE) (ext : DEVICE_EXTENSION)
    (pre : List WDFIOTARGET) (t : WDFIOTARGET) (post : List WDFIOTARGET)
    (hcoll : ext.TargetDeviceCollection = pre ++ t :: post)
    (hguid : wnode.WnodeHeader.Guid = TOASTER_NOTIFY_DEVICE_ARRIVAL_EVENT)
    (hpre : ∀ t' ∈ pre, ¬ targetMatches wnode t')
    (hmatch : targetMatches wnode t) :
    (WmiNotificationCallback wnode ext).2 =
      Ev.acquire :: (skipEvents pre ++ (resolveEvents t ++ [Ev.release])) := by
  simp only [WmiNotificationCallback, hcoll]
  rw [scan_first_match wnode hguid pre t post hpre hmatch]
  simp [List.append_assoc]

/-- Witness for C1: with registry [T1 stopped/provider 10, T2
started/provider 20, T3 started/provider 20] and an arrival event from
provider 20, the trace is the skip log for T1 followed by T2's resolution;
T3 contributes nothing. -/
theorem C1_first_match_wins_witness :
    (WmiNotificationCallback wnArrival extSample).2 =
      Ev.acquire :: (skipEvents [tStoppedA] ++ (resolveEvents tStartedB ++ [Ev.release])) :=
  C1_first_match_wins wnArrival extSample [tStoppedA] tStartedB [tStartedB2] rfl rfl
    (by decide) (by decide)

end Toastmon
